import Mathlib

/-!
Shallow embedding of the guest-facing concierge pipeline of the
marriott-odyssey-360 backend (files `core/emotion_ai_simple.py`,
`core/concierge_ai_simple.py`, `api/concierge.py`), followed by theorems
about the embedded definitions.

Conventions of the embedding:
* Python strings are Lean `String`s; `str.lower()` is modelled as a
  character-wise `Char.toLower` map, and `a in b` (substring test) as
  `List.isInfixOf` on the underlying character lists.
* Python floats in the emotion classifier are modelled as exact rationals
  (`ℚ`); the classifier only ever builds `0.5 + 0.1 * k` capped at `0.9`.
* `datetime.now().isoformat()` is modelled by threading the wall-clock
  string `now` through as an explicit parameter.
* A Python function that can raise is modelled with `Except String`.
-/

namespace Odyssey

/-- `str.lower()` on a Python string, modelled character-wise. -/
def pyLower (s : String) : String := ⟨s.data.map Char.toLower⟩

/-- Python substring containment `needle in hay`. -/
def pyContains (hay needle : String) : Bool := decide (needle.data <:+: hay.data)

/-- Python `any(word in text for word in kws)`. -/
def anyKeywordIn (text : String) (kws : List String) : Bool :=
  kws.any (fun k => pyContains text k)

/-- `EmotionType` enum of `core/emotion_ai_simple.py`. -/
inductive EmotionType where
  | JOY | SADNESS | ANGER | FEAR | SURPRISE | DISGUST | NEUTRAL
  | STRESS | EXCITEMENT | CONTENTMENT | ANXIETY | FRUSTRATION
deriving DecidableEq, Repr

/-- `.value` string of each `EmotionType` member. -/
def EmotionType.value : EmotionType → String
  | .JOY => "joy"
  | .SADNESS => "sadness"
  | .ANGER => "anger"
  | .FEAR => "fear"
  | .SURPRISE => "surprise"
  | .DISGUST => "disgust"
  | .NEUTRAL => "neutral"
  | .STRESS => "stress"
  | .EXCITEMENT => "excitement"
  | .CONTENTMENT => "contentment"
  | .ANXIETY => "anxiety"
  | .FRUSTRATION => "frustration"

/-- `EmotionIntensity` enum of `core/emotion_ai_simple.py`. -/
inductive EmotionIntensity where
  | VERY_LOW | LOW | MEDIUM | HIGH | VERY_HIGH
deriving DecidableEq, Repr

/-- `.value` string of each `EmotionIntensity` member. -/
def EmotionIntensity.value : EmotionIntensity → String
  | .VERY_LOW => "very_low"
  | .LOW => "low"
  | .MEDIUM => "medium"
  | .HIGH => "high"
  | .VERY_HIGH => "very_high"

/-- `EmotionResult` dataclass of `core/emotion_ai_simple.py`. -/
structure EmotionResult where
  emotion : EmotionType
  intensity : EmotionIntensity
  confidence : ℚ
  context : Option String
  suggestions : List String
  timestamp : String
deriving DecidableEq, Repr

/-- `EmotionAI.emotion_keywords`: the keyword dict, in declaration order. -/
def emotionKeywords : List (EmotionType × List String) :=
  [(.JOY, ["happy", "excited", "great", "amazing", "wonderful", "fantastic", "love", "enjoy"]),
   (.SADNESS, ["sad", "depressed", "down", "upset", "disappointed", "hurt", "lonely"]),
   (.ANGER, ["angry", "mad", "furious", "annoyed", "irritated", "frustrated", "rage"]),
   (.FEAR, ["scared", "afraid", "worried", "anxious", "nervous", "terrified", "panic"]),
   (.STRESS, ["stressed", "overwhelmed", "pressure", "tense", "burned out", "exhausted"]),
   (.EXCITEMENT, ["excited", "thrilled", "pumped", "energized", "enthusiastic", "eager"])]

/-- `sum(1 for keyword in keywords if keyword in text_lower)`. -/
def keywordScore (textLower : String) (kws : List String) : Nat :=
  (kws.filter (fun k => pyContains textLower k)).length

/-- The `emotion_scores` dict: pairs with positive score, in insertion
(= declaration) order. -/
def emotionScores (textLower : String) : List (EmotionType × Nat) :=
  (emotionKeywords.map (fun p => (p.1, keywordScore textLower p.2))).filter
    (fun p => 0 < p.2)

/-- `max(emotion_scores, key=emotion_scores.get)`: the first key attaining the
maximal score in insertion order (a later element replaces the current
champion only when strictly greater). -/
def maxByScore : List (EmotionType × Nat) → Option (EmotionType × Nat)
  | [] => none
  | p :: ps =>
    match maxByScore ps with
    | none => some p
    | some q => if q.2 > p.2 then some q else some p

/-- `EmotionAI._determine_intensity`. -/
def determineIntensity (confidence : ℚ) : EmotionIntensity :=
  if confidence ≥ 9/10 then .VERY_HIGH
  else if confidence ≥ 7/10 then .HIGH
  else if confidence ≥ 1/2 then .MEDIUM
  else if confidence ≥ 3/10 then .LOW
  else .VERY_LOW

/-- `EmotionAI._generate_emotion_suggestions`. -/
def generateEmotionSuggestions (emotion : EmotionType) (_intensity : EmotionIntensity)
    (_context : Option String) : List String :=
  let suggestions : List String :=
    if emotion = .STRESS ∨ emotion = .ANXIETY then
      ["Would you like me to dim the lights and play calming music?",
       "I can schedule a spa treatment or meditation session for you.",
       "Would you prefer a quiet room service meal in your room?",
       "I can adjust the room temperature to a more comfortable level."]
    else if emotion = .SADNESS then
      ["Would you like me to suggest some uplifting activities?",
       "I can arrange for your favorite comfort food to be delivered.",
       "Would you like to connect with our concierge for local entertainment?",
       "I can adjust the room lighting to be more cheerful."]
    else if emotion = .JOY ∨ emotion = .EXCITEMENT then
      ["Would you like me to suggest some exciting local activities?",
       "I can help you plan a special celebration dinner.",
       "Would you like to explore our premium amenities?",
       "I can arrange for a surprise upgrade or special treat."]
    else if emotion = .ANGER ∨ emotion = .FRUSTRATION then
      ["I understand you\x27re frustrated. How can I help resolve this?",
       "Would you like me to connect you with our manager?",
       "I can arrange for a quiet space or different room if needed.",
       "Would you like me to suggest some stress-relief activities?"]
    else []
  suggestions.take 3

/-- `EmotionAI.detect_text_emotion`: keyword-based emotion detection.  The
wall-clock timestamp `now` is threaded in explicitly; the `try`/`except`
of the source wraps a body of pure operations that cannot raise, so the
fallback branch is unreachable and not modelled. -/
def detectTextEmotion (text : String) (context : Option String) (now : String) :
    EmotionResult :=
  let textLower := pyLower text
  match maxByScore (emotionScores textLower) with
  | some p =>
    let confidence : ℚ := min (9/10) (1/2 + p.2 * (1/10))
    let intensity := determineIntensity confidence
    { emotion := p.1, intensity := intensity, confidence := confidence,
      context := context,
      suggestions := generateEmotionSuggestions p.1 intensity context,
      timestamp := now }
  | none =>
    let confidence : ℚ := 1/2
    let intensity := determineIntensity confidence
    { emotion := .NEUTRAL, intensity := intensity, confidence := confidence,
      context := context,
      suggestions := generateEmotionSuggestions .NEUTRAL intensity context,
      timestamp := now }

/-- `ConciergePersonality` enum of `core/concierge_ai_simple.py`. -/
inductive ConciergePersonality where
  | PROFESSIONAL | FRIENDLY | ENTHUSIASTIC | CALM | HUMOROUS
  | FORMAL | CASUAL | EMPATHETIC | EFFICIENT | CONVERSATIONAL
deriving DecidableEq, Repr

/-- `.value` string of each `ConciergePersonality` member. -/
def ConciergePersonality.value : ConciergePersonality → String
  | .PROFESSIONAL => "professional"
  | .FRIENDLY => "friendly"
  | .ENTHUSIASTIC => "enthusiastic"
  | .CALM => "calm"
  | .HUMOROUS => "humorous"
  | .FORMAL => "formal"
  | .CASUAL => "casual"
  | .EMPATHETIC => "empathetic"
  | .EFFICIENT => "efficient"
  | .CONVERSATIONAL => "conversational"

/-- `ConciergePersonality(value)`: Python enum lookup by value.  Returns
`none` where the Python constructor raises `ValueError`. -/
def conciergePersonalityOfValue (s : String) : Option ConciergePersonality :=
  if s = "professional" then some .PROFESSIONAL
  else if s = "friendly" then some .FRIENDLY
  else if s = "enthusiastic" then some .ENTHUSIASTIC
  else if s = "calm" then some .CALM
  else if s = "humorous" then some .HUMOROUS
  else if s = "formal" then some .FORMAL
  else if s = "casual" then some .CASUAL
  else if s = "empathetic" then some .EMPATHETIC
  else if s = "efficient" then some .EFFICIENT
  else if s = "conversational" then some .CONVERSATIONAL
  else none

/-- `ServiceType` enum of `core/concierge_ai_simple.py`. -/
inductive ServiceType where
  | ROOM_SERVICE | HOUSEKEEPING | CONCIERGE | DINING | WELLNESS
  | TRANSPORTATION | ENTERTAINMENT | BUSINESS | EMERGENCY | GENERAL
deriving DecidableEq, Repr

/-- `.value` string of each `ServiceType` member. -/
def ServiceType.value : ServiceType → String
  | .ROOM_SERVICE => "room_service"
  | .HOUSEKEEPING => "housekeeping"
  | .CONCIERGE => "concierge"
  | .DINING => "dining"
  | .WELLNESS => "wellness"
  | .TRANSPORTATION => "transportation"
  | .ENTERTAINMENT => "entertainment"
  | .BUSINESS => "business"
  | .EMERGENCY => "emergency"
  | .GENERAL => "general"

/-- One `{action, value, reason}` dict of `_generate_proactive_actions`. -/
structure ProactiveAction where
  action : String
  value : String
  reason : String
deriving DecidableEq, Repr

/-- The fields of `models/user.py` `User` that the pipeline reads. -/
structure User where
  id : Int
  firstName : String
  preferredAiPersonality : String
deriving DecidableEq, Repr

/-- `ConciergeResponse` dataclass of `core/concierge_ai_simple.py`. -/
structure ConciergeResponse where
  message : String
  personality : ConciergePersonality
  serviceType : ServiceType
  suggestions : List String
  proactiveActions : List ProactiveAction
  emotionDetected : Option EmotionResult
  followUpQuestions : List String
  requiresHuman : Bool
deriving DecidableEq, Repr

/-- `ConciergeAI._classify_service_type`: the if/elif keyword cascade. -/
def classifyServiceType (message : String) : ServiceType :=
  let messageLower := pyLower message
  if anyKeywordIn messageLower ["room", "housekeeping", "cleaning", "amenities", "temperature", "lighting"] then
    .ROOM_SERVICE
  else if anyKeywordIn messageLower ["food", "dining", "restaurant", "menu", "dinner", "lunch", "breakfast", "eat"] then
    .DINING
  else if anyKeywordIn messageLower ["spa", "wellness", "massage", "fitness", "gym", "relax", "meditation", "yoga"] then
    .WELLNESS
  else if anyKeywordIn messageLower ["transport", "taxi", "uber", "airport", "shuttle", "car", "ride"] then
    .TRANSPORTATION
  else if anyKeywordIn messageLower ["entertainment", "show", "movie", "theater", "concert", "event", "fun"] then
    .ENTERTAINMENT
  else if anyKeywordIn messageLower ["business", "meeting", "conference", "work", "office", "presentation"] then
    .BUSINESS
  else if anyKeywordIn messageLower ["emergency", "help", "urgent", "problem", "issue", "assistance"] then
    .EMERGENCY
  else
    .GENERAL

/-- The personality-specific greeting block of
`ConciergeAI._generate_template_response` (the if/elif chain over
`personality`, including its final `else` arm). -/
def personalityGreeting (personality : ConciergePersonality) (guestName : String) :
    String :=
  if personality = .FRIENDLY then
    "Hi " ++ guestName ++ "! I\x27m so happy to help you today! 😊"
  else if personality = .PROFESSIONAL then
    "Good day, " ++ guestName ++ ". How may I assist you today?"
  else if personality = .ENTHUSIASTIC then
    "Hello " ++ guestName ++ "! I\x27m excited to help make your stay amazing! ✨"
  else if personality = .CALM then
    "Hello " ++ guestName ++ ". I\x27m here to help you feel comfortable and relaxed."
  else if personality = .HUMOROUS then
    "Hey there, " ++ guestName ++ "! Ready to have some fun? Let me know what you need! 😄"
  else if personality = .EMPATHETIC then
    "Hello " ++ guestName ++ ". I\x27m here to listen and help however I can."
  else
    "Hello " ++ guestName ++ ". How can I assist you today?"

/-- The `service_responses` lookup of `_generate_template_response`
(`service_responses.get(service_type, service_responses[GENERAL])`); the dict
covers every category except HOUSEKEEPING, so those two fall to GENERAL. -/
def serviceResponse (serviceType : ServiceType) : String :=
  if serviceType = .ROOM_SERVICE then
    "I\x27d be delighted to help with your room needs! I can assist with housekeeping, room service, temperature control, or any amenities you might need."
  else if serviceType = .DINING then
    "I\x27d love to help you discover amazing dining experiences! I can recommend restaurants, make reservations, or help with special dietary needs."
  else if serviceType = .WELLNESS then
    "I\x27m here to support your wellness journey! I can help with spa bookings, fitness activities, or any relaxation needs you have."
  else if serviceType = .CONCIERGE then
    "I\x27m excited to help make your stay memorable! I can recommend local attractions, arrange transportation, or coordinate special experiences."
  else if serviceType = .TRANSPORTATION then
    "I\x27d be happy to help with your transportation needs! I can arrange airport transfers, local rides, or provide transportation information."
  else if serviceType = .ENTERTAINMENT then
    "Let me help you find some great entertainment! I can suggest shows, events, or activities that match your interests."
  else if serviceType = .BUSINESS then
    "I\x27m here to support your business needs! I can help with meeting arrangements, business services, or work-related requests."
  else if serviceType = .EMERGENCY then
    "I understand this is urgent. Let me help you immediately. What specific assistance do you need right now?"
  else
    "I\x27m here to help with whatever you need! Feel free to ask me anything about your stay or our services."

/-- The emotion-conditional suffix of `_generate_template_response`. -/
def emotionResponseSuffix (emotionResult : Option EmotionResult) : String :=
  match emotionResult with
  | some r =>
    if r.emotion = .STRESS ∨ r.emotion = .ANXIETY then
      " I can sense you might be feeling a bit stressed. Let me help make things easier for you."
    else if r.emotion = .SADNESS then
      " I want to make sure you\x27re comfortable and happy during your stay. How can I help brighten your day?"
    else if r.emotion = .JOY ∨ r.emotion = .EXCITEMENT then
      " I love your positive energy! Let\x27s make your stay even more amazing!"
    else ""
  | none => ""

/-- `ConciergeAI._generate_template_response`:
`f"{greeting} {service_response}{emotion_response}"`. -/
def generateTemplateResponse (_message : String) (personality : ConciergePersonality)
    (serviceType : ServiceType) (emotionResult : Option EmotionResult) (user : User) :
    String :=
  personalityGreeting personality user.firstName ++ " " ++
    serviceResponse serviceType ++ emotionResponseSuffix emotionResult

/-- `ConciergeAI._generate_proactive_actions`. -/
def generateProactiveActions (emotionResult : Option EmotionResult)
    (_serviceType : ServiceType) (_user : User) : List ProactiveAction :=
  match emotionResult with
  | some r =>
    if r.emotion = .STRESS ∨ r.emotion = .ANXIETY then
      [{ action := "adjust_lighting", value := "dim", reason := "Create calming atmosphere" },
       { action := "suggest_wellness", value := "spa_treatment", reason := "Help reduce stress" },
       { action := "adjust_temperature", value := "comfortable", reason := "Optimize comfort" }]
    else if r.emotion = .SADNESS then
      [{ action := "suggest_entertainment", value := "uplifting_activity", reason := "Boost mood" },
       { action := "offer_comfort_food", value := "favorite_dish", reason := "Provide comfort" }]
    else if r.emotion = .JOY ∨ r.emotion = .EXCITEMENT then
      [{ action := "suggest_premium_services", value := "upgrade_options", reason := "Enhance positive experience" },
       { action := "recommend_activities", value := "exciting_experiences", reason := "Maintain positive energy" }]
    else []
  | none => []

/-- `ConciergeAI._generate_follow_up_questions` (`questions[:2]`). -/
def generateFollowUpQuestions (serviceType : ServiceType)
    (_emotionResult : Option EmotionResult) : List String :=
  let questions : List String :=
    if serviceType = .ROOM_SERVICE then
      ["Would you like me to schedule housekeeping for a specific time?",
       "Is there anything specific you\x27d like me to arrange for your room?",
       "Would you like me to adjust any room settings for you?"]
    else if serviceType = .DINING then
      ["Do you have any dietary restrictions or preferences?",
       "What type of cuisine are you in the mood for?",
       "Would you like me to make a reservation for you?"]
    else if serviceType = .WELLNESS then
      ["What type of wellness experience are you looking for?",
       "Do you have any specific health goals or preferences?",
       "Would you like me to check availability for spa services?"]
    else []
  questions.take 2

/-- The `complex_keywords` list of `_requires_human_intervention`. -/
def complexKeywords : List String :=
  ["complaint", "refund", "manager", "supervisor", "legal", "medical"]

/-- `ConciergeAI._requires_human_intervention`: the three early-return rules. -/
def requiresHumanIntervention (message : String) (emotionResult : Option EmotionResult)
    (serviceType : ServiceType) : Bool :=
  let highNegative : Bool :=
    match emotionResult with
    | some r =>
      decide (r.intensity.value = "high" ∨ r.intensity.value = "very_high") &&
        decide (r.emotion = .ANGER ∨ r.emotion = .FRUSTRATION)
    | none => false
  if serviceType = .EMERGENCY then true
  else if highNegative then true
  else if complexKeywords.any (fun k => pyContains (pyLower message) k) then true
  else false

/-- `ConciergeAI._generate_response`: assembles the `ConciergeResponse`.
The `personality_prompt` local of the source is computed but never used, so
it is not modelled.  `suggestions` copies `emotion_result.suggestions`. -/
def generateResponse (message : String) (user : User)
    (personality : ConciergePersonality) (serviceType : ServiceType)
    (emotionResult : EmotionResult) : ConciergeResponse :=
  { message := generateTemplateResponse message personality serviceType (some emotionResult) user,
    personality := personality,
    serviceType := serviceType,
    suggestions := emotionResult.suggestions,
    proactiveActions := generateProactiveActions (some emotionResult) serviceType user,
    emotionDetected := some emotionResult,
    followUpQuestions := generateFollowUpQuestions serviceType (some emotionResult),
    requiresHuman := requiresHumanIntervention message (some emotionResult) serviceType }

/-- `ConciergeAI.process_guest_message` up to and including response
generation.  `ConciergePersonality(user.preferred_ai_personality)` raises
`ValueError` for a value outside the enum; that raise is modelled with
`Except.error`.  The memory update that follows is modelled separately
(`updateConversationMemory`) since it touches the shared store. -/
def processGuestMessage (message : String) (user : User)
    (context : Option String) (now : String) : Except String ConciergeResponse :=
  let emotionResult := detectTextEmotion message context now
  let serviceType := classifyServiceType message
  match conciergePersonalityOfValue user.preferredAiPersonality with
  | none =>
    Except.error ("\x27" ++ user.preferredAiPersonality ++ "\x27 is not a valid ConciergePersonality")
  | some personality =>
    Except.ok (generateResponse message user personality serviceType emotionResult)

/-- One record appended by `_update_conversation_memory`. -/
structure ConversationTurn where
  timestamp : String
  userMessage : String
  aiResponse : String
  emotionDetected : Option String
  serviceTypeValue : String
deriving DecidableEq, Repr

/-- `ConciergeAI._update_conversation_memory`, restricted to one guest key:
append the new record, then `mem = mem[-20:]` when the length exceeds 20. -/
def updateConversationMemory (history : List ConversationTurn)
    (turn : ConversationTurn) : List ConversationTurn :=
  let h := history ++ [turn]
  if h.length > 20 then h.drop (h.length - 20) else h

/-- Python `l[start:]` for an integer `start` (the only slice shape used by
`get_conversation_history`, where `start = -limit`). -/
def pySliceFrom (l : List α) (start : Int) : List α :=
  if start < 0 then l.drop (l.length - (-start).toNat)
  else l.drop start.toNat

/-- `api/concierge.py get_conversation_history`, restricted to one guest key:
`history[-limit:] if len(history) > limit else history`. -/
def getConversationHistory (history : List ConversationTurn) (limit : Int) :
    List ConversationTurn :=
  if (history.length : Int) > limit then pySliceFrom history (-limit) else history

/-- The router's precedence list `(category, keywords)` written as explicit
data, in the order of the if/elif cascade of `_classify_service_type`. -/
def servicePrecedence : List (ServiceType × List String) :=
  [(.ROOM_SERVICE, ["room", "housekeeping", "cleaning", "amenities", "temperature", "lighting"]),
   (.DINING, ["food", "dining", "restaurant", "menu", "dinner", "lunch", "breakfast", "eat"]),
   (.WELLNESS, ["spa", "wellness", "massage", "fitness", "gym", "relax", "meditation", "yoga"]),
   (.TRANSPORTATION, ["transport", "taxi", "uber", "airport", "shuttle", "car", "ride"]),
   (.ENTERTAINMENT, ["entertainment", "show", "movie", "theater", "concert", "event", "fun"]),
   (.BUSINESS, ["business", "meeting", "conference", "work", "office", "presentation"]),
   (.EMERGENCY, ["emergency", "help", "urgent", "problem", "issue", "assistance"])]

/-- First category of the list whose keyword set matches; used by
`routeSpecOrdered`. -/
def firstMatch (textLower : String) : List (ServiceType × List String) → ServiceType
  | [] => .GENERAL
  | p :: ps => if anyKeywordIn textLower p.2 then p.1 else firstMatch textLower ps

/-- The service router as the specification words it: a fixed ordered
precedence list evaluated top to bottom, first category with any
case-insensitive substring keyword match wins, GENERAL as the default.
Stated separately from `classifyServiceType` so the two can be compared. -/
def routeSpecOrdered (message : String) : ServiceType :=
  firstMatch (pyLower message) servicePrecedence

/-- Keyword list declared for an emotion in `emotion_keywords` (empty for
the six emotions that have no keyword set). -/
def keywordListOf (e : EmotionType) : List String :=
  ((emotionKeywords.find? (fun p => decide (p.1 = e))).map Prod.snd).getD []

/-- Number of distinct keywords of emotion `e` found in the lower-cased
text. -/
def emotionScoreOf (text : String) (e : EmotionType) : Nat :=
  keywordScore (pyLower text) (keywordListOf e)

/-- No keyword of any emotion occurs in the lower-cased text. -/
def noEmotionKeywordIn (text : String) : Prop :=
  ∀ p ∈ emotionKeywords, ∀ k ∈ p.2, pyContains (pyLower text) k = false

/-- The message of spec scenario A. -/
def scenarioAMessage : String := "I am so stressed about tomorrow\x27s meeting"

/-- Distinct conversation turns used to exercise the memory bound. -/
def mkTurn (i : Nat) : ConversationTurn :=
  { timestamp := Nat.repr i, userMessage := "u", aiResponse := "a",
    emotionDetected := none, serviceTypeValue := "s" }

/-! ## Helper lemmas -/

/-- The intensity `.value` strings "high"/"very_high" characterise exactly the
HIGH and VERY_HIGH members. -/
theorem intensityValue_high_iff (i : EmotionIntensity) :
    (i.value = "high" ∨ i.value = "very_high") ↔ (i = .HIGH ∨ i = .VERY_HIGH) := by
  cases i <;> decide

/-! ## C10 -/

/-- C10: for every non-empty stored conversation history, retrieving with
`limit = 0` returns the entire stored history rather than an empty sequence,
because `history[-0:]` denotes the whole list. -/
theorem getConversationHistory_zero_limit (h : List ConversationTurn) (hne : h ≠ []) :
    getConversationHistory h 0 = h := by
  have hlen : 0 < h.length := List.length_pos.mpr hne
  unfold getConversationHistory pySliceFrom
  simp [hlen]

/-- Witness for C10 at a concrete one-element history. -/
theorem getConversationHistory_zero_limit_witness :
    getConversationHistory [mkTurn 0] 0 = [mkTurn 0] :=
  getConversationHistory_zero_limit [mkTurn 0] (by decide)

/-! ## C2 -/

/-- C2: `_requires_human_intervention` returns true exactly when one of the
three rules fires — EMERGENCY service category, high-intensity ANGER or
FRUSTRATION, or a complex keyword contained case-insensitively in the
message — and in particular EMERGENCY alone forces true; the function is
total over all inputs. -/
theorem requiresHumanIntervention_iff (message : String)
    (emotionResult : Option EmotionResult) (serviceType : ServiceType) :
    (requiresHumanIntervention message emotionResult serviceType = true ↔
      (serviceType = .EMERGENCY ∨
        (∃ r, emotionResult = some r ∧
          (r.intensity = .HIGH ∨ r.intensity = .VERY_HIGH) ∧
          (r.emotion = .ANGER ∨ r.emotion = .FRUSTRATION)) ∨
        (∃ k ∈ complexKeywords, pyContains (pyLower message) k = true))) ∧
    (serviceType = .EMERGENCY →
      requiresHumanIntervention message emotionResult serviceType = true) := by
  constructor
  · unfold requiresHumanIntervention
    cases emotionResult with
    | none =>
      split_ifs <;>
        simp_all [List.any_eq_true]
    | some r =>
      split_ifs <;>
        simp_all [List.any_eq_true, Bool.and_eq_true, decide_eq_true_eq,
          intensityValue_high_iff]
  · intro hE
    unfold requiresHumanIntervention
    simp [hE]

/-- Witness for C2: an EMERGENCY-category request escalates. -/
theorem requiresHumanIntervention_iff_witness :
    requiresHumanIntervention "hello" none .EMERGENCY = true :=
  (requiresHumanIntervention_iff "hello" none .EMERGENCY).2 rfl

/-! ## C7 -/

/-- Counterexample for C7: with the unmapped variant CASUAL the synthesized
greeting is the generic fallback, not the PROFESSIONAL-template greeting for
the same guest name. -/
theorem personalityGreeting_casual_ne_professional :
    personalityGreeting .CASUAL "Alex" ≠ personalityGreeting .PROFESSIONAL "Alex" := by
  decide

/-- C7 (amended): for every guest name, each of the four unmapped variants
(FORMAL, CASUAL, EFFICIENT, CONVERSATIONAL) produces the generic fallback
greeting "Hello {name}. How can I assist you today?", which differs from the
PROFESSIONAL-template greeting "Good day, {name}. How may I assist you
today?". -/
theorem personalityGreeting_unmapped_generic_fallback (guestName : String) :
    personalityGreeting .FORMAL guestName =
      "Hello " ++ guestName ++ ". How can I assist you today?" ∧
    personalityGreeting .CASUAL guestName =
      "Hello " ++ guestName ++ ". How can I assist you today?" ∧
    personalityGreeting .EFFICIENT guestName =
      "Hello " ++ guestName ++ ". How can I assist you today?" ∧
    personalityGreeting .CONVERSATIONAL guestName =
      "Hello " ++ guestName ++ ". How can I assist you today?" ∧
    personalityGreeting .CASUAL guestName ≠
      personalityGreeting .PROFESSIONAL guestName := by
  refine ⟨rfl, rfl, rfl, rfl, fun h => ?_⟩
  have hc : personalityGreeting .CASUAL guestName =
      "Hello " ++ guestName ++ ". How can I assist you today?" := rfl
  have hp : personalityGreeting .PROFESSIONAL guestName =
      "Good day, " ++ guestName ++ ". How may I assist you today?" := rfl
  rw [hc, hp] at h
  have h2 := congrArg String.length h
  have e1 : ("Hello " : String).length = 6 := rfl
  have e2 : ("Good day, " : String).length = 10 := rfl
  have e3 : (". How can I assist you today?" : String).length = 29 := rfl
  have e4 : (". How may I assist you today?" : String).length = 29 := rfl
  simp only [String.length_append, e1, e2, e3, e4] at h2
  omega

/-! ## C8 -/

/-- Counterexample for C8: two calls of the emotion classifier on the same
text at different wall-clock times produce different outputs, because the
result embeds `datetime.now().isoformat()` in its `timestamp` field. -/
theorem detectTextEmotion_output_depends_on_clock :
    detectTextEmotion "hello" none "2024-01-01T00:00:00" ≠
      detectTextEmotion "hello" none "2024-01-01T00:00:01" := by
  intro h
  have h2 := congrArg EmotionResult.timestamp h
  simp [detectTextEmotion] at h2
  exact absurd h2 (by decide)

/-- C8 (amended): the classification content — emotion, intensity,
confidence, suggestions, context — is a deterministic function of the text
alone, and the service router is fully deterministic; only the `timestamp`
field of the emotion result varies, recording the wall-clock time of each
call. -/
theorem classifier_and_router_deterministic (text : String) (context : Option String)
    (t1 t2 : String) :
    (detectTextEmotion text context t1).emotion = (detectTextEmotion text context t2).emotion ∧
    (detectTextEmotion text context t1).intensity = (detectTextEmotion text context t2).intensity ∧
    (detectTextEmotion text context t1).confidence = (detectTextEmotion text context t2).confidence ∧
    (detectTextEmotion text context t1).suggestions = (detectTextEmotion text context t2).suggestions ∧
    (detectTextEmotion text context t1).context = (detectTextEmotion text context t2).context ∧
    (detectTextEmotion text context t1).timestamp = t1 ∧
    (detectTextEmotion text context t2).timestamp = t2 ∧
    classifyServiceType text = classifyServiceType text := by
  cases h : maxByScore (emotionScores (pyLower text)) <;>
    simp [detectTextEmotion, h]

/-- The element selected by `maxByScore` belongs to the scored list. -/
theorem maxByScore_mem : ∀ {l : List (EmotionType × Nat)} {p : EmotionType × Nat},
    maxByScore l = some p → p ∈ l := by
  intro l
  induction l with
  | nil => intro p h; simp [maxByScore] at h
  | cons q qs ih =>
    intro p h
    unfold maxByScore at h
    revert h
    cases hm : maxByScore qs with
    | none =>
      intro h
      have h2 : some q = some p := h
      simp only [Option.some.injEq] at h2
      simp [h2]
    | some r =>
      intro h
      have h2 : (if r.2 > q.2 then some r else some q) = some p := h
      by_cases hgt : r.2 > q.2
      · rw [if_pos hgt] at h2
        simp only [Option.some.injEq] at h2
        subst h2
        exact List.mem_cons_of_mem _ (ih hm)
      · rw [if_neg hgt] at h2
        simp only [Option.some.injEq] at h2
        simp [h2]

/-- Any entry of the scores dict carries one of the six keyword-bearing
emotions, its declared keyword list's score, and a positive score. -/
theorem mem_emotionScores {tl : String} {p : EmotionType × Nat}
    (h : p ∈ emotionScores tl) :
    p.1 ∈ ([.JOY, .SADNESS, .ANGER, .FEAR, .STRESS, .EXCITEMENT] : List EmotionType) ∧
    p.2 = keywordScore tl (keywordListOf p.1) ∧ 0 < p.2 := by
  unfold emotionScores at h
  rw [List.mem_filter] at h
  obtain ⟨hmem, hpos⟩ := h
  rw [List.mem_map] at hmem
  obtain ⟨q, hq, hpq⟩ := hmem
  simp only [decide_eq_true_eq] at hpos
  simp only [emotionKeywords, List.mem_cons, List.not_mem_nil, or_false] at hq
  rcases hq with hq | hq | hq | hq | hq | hq <;>
    (subst hq; subst hpq; exact ⟨by simp, rfl, hpos⟩)

/-- The threshold table of `_determine_intensity`, case by case. -/
theorem determineIntensity_cases (c : ℚ) :
    (9/10 ≤ c → determineIntensity c = .VERY_HIGH) ∧
    (7/10 ≤ c → c < 9/10 → determineIntensity c = .HIGH) ∧
    (1/2 ≤ c → c < 7/10 → determineIntensity c = .MEDIUM) ∧
    (3/10 ≤ c → c < 1/2 → determineIntensity c = .LOW) ∧
    (c < 3/10 → determineIntensity c = .VERY_LOW) := by
  unfold determineIntensity
  refine ⟨?_, ?_, ?_, ?_, ?_⟩ <;> intros <;> split_ifs <;>
    first | rfl | (exfalso; linarith)

/-! ## C3 -/

/-- Counterexample for C3: the scenario-A message contains "meeting", a
BUSINESS keyword, so the router selects BUSINESS and does not return
GENERAL. -/
theorem scenarioA_routes_to_business : classifyServiceType scenarioAMessage = .BUSINESS ∧
    classifyServiceType scenarioAMessage ≠ .GENERAL := by
  have h : classifyServiceType scenarioAMessage = .BUSINESS := by decide
  exact ⟨h, by rw [h]; decide⟩

/-- C3 (amended): for the message "I am so stressed about tomorrow\x27s
meeting" the service router selects BUSINESS (the substring "meeting" is a
business keyword), the emotion classifier returns STRESS, and the generated
proactive actions include an `adjust_lighting: dim` entry. -/
theorem scenarioA_amended :
    classifyServiceType scenarioAMessage = .BUSINESS ∧
    (detectTextEmotion scenarioAMessage none "t").emotion = .STRESS ∧
    ({ action := "adjust_lighting", value := "dim",
       reason := "Create calming atmosphere" } : ProactiveAction) ∈
      generateProactiveActions (some (detectTextEmotion scenarioAMessage none "t"))
        (classifyServiceType scenarioAMessage) (User.mk 1 "Alex" "professional") := by
  refine ⟨by decide, by decide, ?_⟩
  have he : (detectTextEmotion scenarioAMessage none "t").emotion = .STRESS := by decide
  simp [generateProactiveActions, he]

/-! ## C4 -/

/-- Counterexample for C4: with the unknown personality value "robot"
(outside the 10 declared enum values), the enum conversion inside
`process_guest_message` raises a `ValueError`, so the pipeline surfaces a
failure rather than returning a response. -/
theorem processGuestMessage_unknown_personality_fails :
    processGuestMessage "hello" (User.mk 1 "Alex" "robot") none "t" =
      Except.error "\x27robot\x27 is not a valid ConciergePersonality" := by
  rfl

/-- C4 (amended): when the guest's personality value is one of the 10
declared enum values — including the template-unmapped ones, which fall
back to the generic greeting — processing succeeds with a well-formed
response; but an unknown value outside the enum raises in the
`ConciergePersonality` conversion and surfaces as a failure to the caller. -/
theorem processGuestMessage_personality_handling (message : String) (user : User)
    (context : Option String) (now : String) :
    (∀ p, conciergePersonalityOfValue user.preferredAiPersonality = some p →
      processGuestMessage message user context now =
        Except.ok (generateResponse message user p (classifyServiceType message)
          (detectTextEmotion message context now))) ∧
    (conciergePersonalityOfValue user.preferredAiPersonality = none →
      processGuestMessage message user context now =
        Except.error ("\x27" ++ user.preferredAiPersonality ++
          "\x27 is not a valid ConciergePersonality")) := by
  constructor
  · intro p hp
    unfold processGuestMessage
    rw [hp]
  · intro hp
    unfold processGuestMessage
    rw [hp]

/-- Witness for C4 (amended): the declared-but-unmapped variant "casual"
yields a successful response, while the unknown value "robot" yields a
surfaced error. -/
theorem processGuestMessage_personality_handling_witness :
    processGuestMessage "hello" (User.mk 1 "Alex" "casual") none "t" =
      Except.ok (generateResponse "hello" (User.mk 1 "Alex" "casual") .CASUAL
        (classifyServiceType "hello") (detectTextEmotion "hello" none "t")) ∧
    processGuestMessage "hello" (User.mk 1 "Alex" "robot") none "t" =
      Except.error ("\x27" ++ "robot" ++ "\x27 is not a valid ConciergePersonality") :=
  ⟨(processGuestMessage_personality_handling "hello" (User.mk 1 "Alex" "casual") none "t").1
      .CASUAL (by decide),
   (processGuestMessage_personality_handling "hello" (User.mk 1 "Alex" "robot") none "t").2
      (by decide)⟩

/-! ## C5 -/

/-- C5: the service router is total and deterministic — it agrees with the
ordered first-match evaluation of the fixed precedence list, always lands in
the declared `ServiceType` enum, and any message whose lower-cased text
contains "room" routes to ROOM_SERVICE regardless of later keywords such as
"emergency". -/
theorem classifyServiceType_total_firstMatch (message : String) :
    classifyServiceType message = routeSpecOrdered message ∧
    classifyServiceType message ∈
      ([.ROOM_SERVICE, .HOUSEKEEPING, .CONCIERGE, .DINING, .WELLNESS,
        .TRANSPORTATION, .ENTERTAINMENT, .BUSINESS, .EMERGENCY, .GENERAL] :
        List ServiceType) ∧
    (pyContains (pyLower message) "room" = true →
      classifyServiceType message = .ROOM_SERVICE) := by
  refine ⟨rfl, ?_, ?_⟩
  · cases classifyServiceType message <;> decide
  · intro h
    have hany : anyKeywordIn (pyLower message)
        ["room", "housekeeping", "cleaning", "amenities", "temperature", "lighting"] = true := by
      unfold anyKeywordIn
      rw [List.any_eq_true]
      exact ⟨"room", by simp, h⟩
    unfold classifyServiceType
    simp [hany]

/-- Witness for C5: a message containing both "room" and "emergency" routes
to ROOM_SERVICE. -/
theorem classifyServiceType_total_firstMatch_witness :
    classifyServiceType "emergency in my room" = .ROOM_SERVICE :=
  (classifyServiceType_total_firstMatch "emergency in my room").2.2 (by decide)

/-! ## C6 -/

/-- C6: on text with no emotion keywords the classifier returns NEUTRAL with
confidence exactly 1/2 and intensity MEDIUM (and no suggestions); on a
matched (non-NEUTRAL) emotion the confidence equals
`min(0.9, 0.5 + 0.1 * score)` for that emotion's distinct-keyword score; and
the intensity always follows the fixed monotonic thresholds on the
confidence. -/
theorem detectTextEmotion_neutral_confidence_intensity (text : String)
    (context : Option String) (now : String) :
    (noEmotionKeywordIn text →
      detectTextEmotion text context now =
        { emotion := .NEUTRAL, intensity := .MEDIUM, confidence := 1/2,
          context := context, suggestions := [], timestamp := now }) ∧
    ((detectTextEmotion text context now).emotion ≠ .NEUTRAL →
      (detectTextEmotion text context now).confidence =
        min ((9 : ℚ)/10)
          (1/2 + (emotionScoreOf text (detectTextEmotion text context now).emotion) * (1/10))) ∧
    (9/10 ≤ (detectTextEmotion text context now).confidence →
      (detectTextEmotion text context now).intensity = .VERY_HIGH) ∧
    (7/10 ≤ (detectTextEmotion text context now).confidence →
      (detectTextEmotion text context now).confidence < 9/10 →
      (detectTextEmotion text context now).intensity = .HIGH) ∧
    (1/2 ≤ (detectTextEmotion text context now).confidence →
      (detectTextEmotion text context now).confidence < 7/10 →
      (detectTextEmotion text context now).intensity = .MEDIUM) ∧
    (3/10 ≤ (detectTextEmotion text context now).confidence →
      (detectTextEmotion text context now).confidence < 1/2 →
      (detectTextEmotion text context now).intensity = .LOW) ∧
    ((detectTextEmotion text context now).confidence < 3/10 →
      (detectTextEmotion text context now).intensity = .VERY_LOW) := by
  have hI : (detectTextEmotion text context now).intensity =
      determineIntensity (detectTextEmotion text context now).confidence := by
    simp only [detectTextEmotion]
    cases h : maxByScore (emotionScores (pyLower text)) <;> rfl
  obtain ⟨hc1, hc2, hc3, hc4, hc5⟩ :=
    determineIntensity_cases (detectTextEmotion text context now).confidence
  refine ⟨?_, ?_, fun a => hI.trans (hc1 a), fun a b => hI.trans (hc2 a b),
    fun a b => hI.trans (hc3 a b), fun a b => hI.trans (hc4 a b),
    fun a => hI.trans (hc5 a)⟩
  · intro hno
    have hsc : emotionScores (pyLower text) = [] := by
      unfold emotionScores
      rw [List.filter_eq_nil_iff]
      intro a ha
      rw [List.mem_map] at ha
      obtain ⟨q, hq, hqa⟩ := ha
      have hz : keywordScore (pyLower text) q.2 = 0 := by
        unfold keywordScore
        rw [List.length_eq_zero, List.filter_eq_nil_iff]
        intro k hk
        simp [hno q hq k hk]
      simp [← hqa, hz]
    simp only [detectTextEmotion]
    rw [hsc]
    simp only [maxByScore]
    norm_num [determineIntensity, generateEmotionSuggestions]
    decide
  · intro hne
    revert hne
    simp only [detectTextEmotion]
    cases h : maxByScore (emotionScores (pyLower text)) with
    | none => intro hne; simp at hne
    | some p =>
      intro _
      obtain ⟨-, hscore, -⟩ := mem_emotionScores (maxByScore_mem h)
      simp only [emotionScoreOf]
      rw [← hscore]


/-- Witness for C6: the empty string has no emotion keywords and classifies
as NEUTRAL/MEDIUM with confidence 1/2, while "happy day" matches an emotion
and receives the min-capped confidence formula. -/
theorem detectTextEmotion_neutral_confidence_intensity_witness :
    detectTextEmotion "" none "t" =
      { emotion := .NEUTRAL, intensity := .MEDIUM, confidence := 1/2,
        context := none, suggestions := [], timestamp := "t" } ∧
    (detectTextEmotion "happy day" none "t").confidence =
      min ((9 : ℚ)/10)
        (1/2 + (emotionScoreOf "happy day" (detectTextEmotion "happy day" none "t").emotion) * (1/10)) :=
  ⟨(detectTextEmotion_neutral_confidence_intensity "" none "t").1
      (by unfold noEmotionKeywordIn; decide),
   (detectTextEmotion_neutral_confidence_intensity "happy day" none "t").2.1 (by decide)⟩

/-! ## C9 -/

/-- C9: text-derived emotion results only ever carry one of the six
keyword-bearing emotions or NEUTRAL — ANXIETY, FRUSTRATION, CONTENTMENT,
SURPRISE and DISGUST are never produced from text — so the high-intensity
ANGER-or-FRUSTRATION escalation rule can only be triggered by ANGER for a
text-derived result. -/
theorem detectTextEmotion_emotion_range (text : String) (context : Option String)
    (now : String) :
    (detectTextEmotion text context now).emotion ∈
      ([.JOY, .SADNESS, .ANGER, .FEAR, .STRESS, .EXCITEMENT, .NEUTRAL] :
        List EmotionType) ∧
    (((detectTextEmotion text context now).emotion = .ANGER ∨
        (detectTextEmotion text context now).emotion = .FRUSTRATION) →
      (detectTextEmotion text context now).emotion = .ANGER) := by
  simp only [detectTextEmotion]
  cases h : maxByScore (emotionScores (pyLower text)) with
  | none => simp
  | some p =>
    obtain ⟨hmem, -, -⟩ := mem_emotionScores (maxByScore_mem h)
    simp only [List.mem_cons, List.not_mem_nil, or_false] at hmem
    constructor
    · show p.1 ∈ ([.JOY, .SADNESS, .ANGER, .FEAR, .STRESS, .EXCITEMENT, .NEUTRAL] :
        List EmotionType)
      rcases hmem with h1 | h1 | h1 | h1 | h1 | h1 <;> rw [h1] <;> decide
    · show (p.1 = EmotionType.ANGER ∨ p.1 = EmotionType.FRUSTRATION) →
        p.1 = EmotionType.ANGER
      rcases hmem with h1 | h1 | h1 | h1 | h1 | h1 <;> rw [h1] <;> decide

/-- Witness for C9: a text with an anger keyword yields ANGER, discharging
the escalation-rule hypothesis. -/
theorem detectTextEmotion_emotion_range_witness :
    (detectTextEmotion "I am angry" none "t").emotion = .ANGER :=
  (detectTextEmotion_emotion_range "I am angry" none "t").2 (Or.inl (by decide))

/-! ## C1 -/

/-- The truncating update always equals dropping down to the last 20. -/
theorem updateConversationMemory_eq_drop (history : List ConversationTurn)
    (turn : ConversationTurn) :
    updateConversationMemory history turn =
      (history ++ [turn]).drop ((history ++ [turn]).length - 20) := by
  simp only [updateConversationMemory]
  split
  · rfl
  · next hle =>
      rw [Nat.sub_eq_zero_of_le (by omega), List.drop_zero]

/-- Keeping only the last 20 before appending more does not change the last
20 of the whole. -/
theorem drop_to_last20_append (a b : List ConversationTurn) :
    (a.drop (a.length - 20) ++ b).drop ((a.drop (a.length - 20) ++ b).length - 20) =
      (a ++ b).drop ((a ++ b).length - 20) := by
  rw [List.drop_append_eq_append_drop, List.drop_append_eq_append_drop,
    List.drop_drop]
  simp only [List.length_append, List.length_drop]
  congr 1
  · congr 1
    omega
  · congr 1
    omega

/-- Folding the memory update over a batch of turns keeps exactly the last
20 of the accumulated sequence. -/
theorem foldl_updateConversationMemory (ts : List ConversationTurn) :
    ∀ h : List ConversationTurn,
      ts.foldl updateConversationMemory (h.drop (h.length - 20)) =
        (h ++ ts).drop ((h ++ ts).length - 20) := by
  induction ts with
  | nil => intro h; simp
  | cons t ts ih =>
    intro h
    rw [List.foldl_cons, updateConversationMemory_eq_drop, drop_to_last20_append,
      ih (h ++ [t])]
    simp

/-- C1: for every sequence of appended turns, the stored history after the
whole sequence (hence after every prefix of appends) has length at most 20,
and once more than 20 turns have been appended, retrieving with any limit at
least the append count returns exactly the last 20 turns in order, the
oldest having been evicted first. -/
theorem conversationMemory_bounded_fifo (ts : List ConversationTurn) :
    (ts.foldl updateConversationMemory []).length ≤ 20 ∧
    (20 < ts.length →
      ∀ limit : Int, (ts.length : Int) ≤ limit →
        getConversationHistory (ts.foldl updateConversationMemory []) limit =
          ts.drop (ts.length - 20)) := by
  have hfold : ts.foldl updateConversationMemory [] = ts.drop (ts.length - 20) := by
    have h0 := foldl_updateConversationMemory ts []
    simpa using h0
  constructor
  · rw [hfold]
    simp only [List.length_drop]
    omega
  · intro hN limit hlim
    rw [hfold]
    unfold getConversationHistory
    have hlen : (ts.drop (ts.length - 20)).length = 20 := by
      simp only [List.length_drop]
      omega
    rw [if_neg]
    rw [hlen]
    push_cast
    omega

/-- Witness for C1: appending 25 distinct turns leaves the last 20, and a
retrieval with limit 30 ≥ 25 returns exactly those. -/
theorem conversationMemory_bounded_fifo_witness :
    getConversationHistory
        (((List.range 25).map mkTurn).foldl updateConversationMemory []) 30 =
      ((List.range 25).map mkTurn).drop (((List.range 25).map mkTurn).length - 20) :=
  (conversationMemory_bounded_fifo ((List.range 25).map mkTurn)).2 (by decide) 30
    (by decide)

end Odyssey
